import Mathlib

/-!
Shallow embedding of the CIQ brand-assets matching engine
(`ciq_brand_assets_cloud.py`): attribute detection over free text,
background hard-filtering, per-structure-type scoring, and
confidence-driven response formatting.  Python dicts that preserve
insertion order are modelled as association lists; Python string
membership (`pattern in request`) is modelled as contiguous-sublist
containment on the character data; a Python exception escaping a
function is modelled as `Option.none`.
-/

namespace BrandAssets

/-- Python `needle in haystack` on strings: contiguous substring test. -/
def strIn (needle haystack : String) : Bool :=
  decide (needle.data <:+: haystack.data)

/-- Python `s.lower()` (ASCII case folding, as `str.lower` on this data). -/
def pyLower (s : String) : String :=
  ⟨s.data.map Char.toLower⟩

/-- Python `s.startswith(p)`. -/
def pyStartsWith (s p : String) : Bool :=
  p.data.isPrefixOf s.data

/-- Word counting for Python `len(pattern.split())`: splits on runs of
spaces (the only whitespace appearing in the keyword tables). -/
def wordCountAux : List Char → Bool → Nat
  | [], _ => 0
  | c :: cs, inWord =>
    if c = ' ' then wordCountAux cs false
    else (if inWord then 0 else 1) + wordCountAux cs true

/-- `len(s.split())`. -/
def pyWordCount (s : String) : Nat :=
  wordCountAux s.data false

/-- A detected attribute: the chosen value with its confidence points. -/
structure AttrVal where
  value : String
  confidence : Nat
deriving DecidableEq, Repr

/-- The dictionary produced by `AttributeDetector.detect_attributes`.
`original_request` is absent (empty) until `get_brand_asset` injects it
after matching, exactly as in the Python flow. -/
structure Attributes where
  product : Option AttrVal
  background : Option AttrVal
  layout : Option AttrVal
  ciq_color_type : Option AttrVal
  total_confidence : Nat
  original_request : String := ""
deriving DecidableEq, Repr

/-- One inventory record.  Fields read via `.get(k, '')` in Python are
plain strings defaulting to `""`; `layout` and `guidance` are read with
two different defaults in the source, so they stay `Option`. -/
structure AssetRecord where
  url : String := ""
  background : String := ""
  layout : Option String := none
  color : String := ""
  color_type : String := ""
  color_mode : String := ""
  guidance : Option String := none
deriving DecidableEq, Repr

/-- The loaded `asset_data` JSON: category key → (asset key → record). -/
abbrev Catalog := List (String × List (String × AssetRecord))

/-- `AttributeDetector.product_patterns` (insertion order preserved). -/
def product_patterns : List (String × List String) :=
  [("ciq", ["ciq", "company", "brand", "main"]),
   ("fuzzball", ["fuzzball", "fuzz ball", "workload", "hpc"]),
   ("warewulf", ["warewulf", "warewulf pro", "cluster", "provisioning"]),
   ("apptainer", ["apptainer", "container", "scientific"]),
   ("ascender", ["ascender", "ascender pro", "automation", "ansible"]),
   ("bridge", ["bridge", "centos", "migration"]),
   ("rlc", ["rlc", "rocky linux commercial", "rocky linux"]),
   ("rlc-ai", ["rlc-ai", "rlc ai", "rocky linux ai", "rocky linux commercial ai"]),
   ("rlc-hardened", ["rlc-hardened", "rlc hardened", "rocky linux hardened",
      "rocky linux commercial hardened"]),
   ("rlc-lts", ["rlc-lts", "rlc lts", "rocky linux lts", "rocky linux commercial lts"])]

/-- `AttributeDetector.background_patterns`: `light` is registered first. -/
def background_patterns : List (String × List String) :=
  [("light", ["light", "white", "light background"]),
   ("dark", ["dark", "black", "dark background"])]

/-- `AttributeDetector.layout_patterns`. -/
def layout_patterns : List (String × List String) :=
  [("icon", ["symbol", "icon", "favicon", "app icon"]),
   ("horizontal", ["horizontal", "wide", "header", "lockup", "full logo", "wordmark"]),
   ("vertical", ["vertical", "tall", "stacked"]),
   ("1color", ["1-color", "1 color", "one color", "standard"]),
   ("2color", ["2-color", "2 color", "two color", "hero"])]

/-- `AttributeDetector.ciq_color_type_patterns`. -/
def ciq_color_type_patterns : List (String × List String) :=
  [("1color_neutral", ["standard", "neutral", "basic", "1-color", "1 color"]),
   ("1color_green", ["green", "punch", "advertising", "social media", "exciting"]),
   ("2color", ["hero", "2-color", "2 color", "primary visual", "presentations"])]

/-- The accumulation loop of `_detect_product`: each matching pattern adds
`len(pattern.split()) * 10` points, plus 20 more for `rlc-` products. -/
def productRawScore (request product : String) (patterns : List String) : Nat :=
  patterns.foldl (fun score pattern =>
    if strIn pattern request then
      score + (10 * pyWordCount pattern +
        (if pyStartsWith product "rlc-" && strIn pattern request then 20 else 0))
    else score) 0

/-- The `scores` dict of `_detect_product`: products with positive raw
score, capped at 50, in registration order. -/
def productScores (request : String) : List (String × Nat) :=
  product_patterns.filterMap (fun pp =>
    let score := productRawScore request pp.1 pp.2
    if score > 0 then some (pp.1, min score 50) else none)

/-- One comparison step of Python `max(scores, key=scores.get)`: the
current best is replaced only on a strictly greater value. -/
def pyStep (best y : String × Nat) : String × Nat :=
  if y.2 > best.2 then y else best

/-- Python `max(scores, key=scores.get)`: scan the entries with `pyStep`
(so the first maximal entry wins). -/
def pyMaxByVal (l : List (String × Nat)) : Option (String × Nat) :=
  match l with
  | [] => none
  | x :: xs => some (xs.foldl pyStep x)

/-- `AttributeDetector._detect_product`. -/
def detect_product (request : String) : Option AttrVal :=
  match pyMaxByVal (productScores request) with
  | some (p, s) => some ⟨p, s⟩
  | none => none

/-- The nested first-match loop shared by the background / layout /
color-type detectors: first table row with any matching pattern wins. -/
def firstPatternMatch (request : String) : List (String × List String) → Option String
  | [] => none
  | (ty, pats) :: rest =>
    if pats.any (fun p => strIn p request) then some ty
    else firstPatternMatch request rest

/-- `AttributeDetector._detect_background` (fixed 60 points). -/
def detect_background (request : String) : Option AttrVal :=
  (firstPatternMatch request background_patterns).map (fun v => ⟨v, 60⟩)

/-- `AttributeDetector._detect_layout` (fixed 30 points). -/
def detect_layout (request : String) : Option AttrVal :=
  (firstPatternMatch request layout_patterns).map (fun v => ⟨v, 30⟩)

/-- `AttributeDetector._detect_ciq_color_type` (fixed 40 points). -/
def detect_ciq_color_type (request : String) : Option AttrVal :=
  (firstPatternMatch request ciq_color_type_patterns).map (fun v => ⟨v, 40⟩)

/-- `AttributeDetector.detect_attributes`: lower-case the request, run the
four detectors, and sum the confidences that fired (background is counted
as the constant 60, as in the source). -/
def detect_attributes (request : String) : Attributes :=
  let r := pyLower request
  let product := detect_product r
  let background := detect_background r
  let layout := detect_layout r
  let cct := detect_ciq_color_type r
  { product := product
    background := background
    layout := layout
    ciq_color_type := cct
    total_confidence :=
      (match product with | some a => a.confidence | none => 0) +
      (match background with | some _ => 60 | none => 0) +
      (match layout with | some a => a.confidence | none => 0) +
      (match cct with | some a => a.confidence | none => 0) }

/-- `AssetMatcher._assess_confidence_level`. -/
def assess_confidence_level (total : Nat) : String :=
  if total ≥ 110 then "high" else if total ≥ 50 then "medium" else "low"

/-- One row of `AssetMatcher.product_info`. -/
structure ProductInfo where
  name : String
  description : String
  structure_type : String
  asset_key : String
deriving DecidableEq, Repr

/-- `AssetMatcher.product_info`. -/
def product_info : List (String × ProductInfo) :=
  [("ciq", ⟨"CIQ", "Company brand", "company", "logos"⟩),
   ("fuzzball", ⟨"Fuzzball", "HPC/AI workload management platform", "product", "fuzzball_logos"⟩),
   ("warewulf", ⟨"Warewulf", "HPC cluster provisioning tool", "product", "warewulf_pro_logos"⟩),
   ("apptainer", ⟨"Apptainer", "Container platform for HPC/scientific workflows", "product",
      "apptainer_logos"⟩),
   ("ascender", ⟨"Ascender", "Infrastructure automation platform", "product",
      "ascender_pro_logos"⟩),
   ("bridge", ⟨"Bridge", "CentOS 7 migration solution", "product", "bridge_logos"⟩),
   ("rlc", ⟨"RLC", "Rocky Linux Commercial (base platform)", "product", "rlc_logos"⟩),
   ("rlc-ai", ⟨"RLC-AI", "Rocky Linux Commercial AI-focused platform", "product",
      "rlc_ai_logos"⟩),
   ("rlc-hardened", ⟨"RLC-Hardened", "Rocky Linux Commercial security-focused platform",
      "product", "rlc_hardened_logos"⟩),
   ("rlc-lts", ⟨"RLC-LTS", "Rocky Linux Commercial long-term support", "product",
      "rlc_lts_logos"⟩)]

/-- Placeholder for the impossible `product_info` lookup miss (detection
only ever yields the ten registered ids). -/
def dummyProductInfo : ProductInfo := ⟨"", "", "", ""⟩

/-- Result dictionary of `AssetMatcher.match_assets`: the help payload,
an error payload, or the success payload with the scored triples. -/
inductive MatchResult where
  | help (message : String)
  | error (message : String)
  | success (product : ProductInfo) (attributes : Attributes) (confidence_level : String)
      (scored_assets : List (Nat × AssetRecord × String))
      (filtered_count : Nat) (original_count : Nat)
deriving DecidableEq, Repr

/-- `AssetMatcher._apply_background_filter` (RULE number 1): with a detected
background, keep only records whose `background` field equals it. -/
def apply_background_filter (assets : List (String × AssetRecord))
    (attributes : Attributes) : List (String × AssetRecord) :=
  match attributes.background with
  | none => assets
  | some bg => assets.filter (fun a => pyLower a.2.background == bg.value)

/-- Python `" + ".join(reasons)`. -/
def joinPlus : List String → String
  | [] => ""
  | [x] => x
  | x :: y :: t => x ++ (" + " ++ joinPlus (y :: t))

/-- Stable descending insertion on the score component: the new element
goes in front of the first entry it ties with or beats, so elements
inserted earlier stay in front of equal-scored elements inserted
later. -/
def insertDesc (x : Nat × AssetRecord × String) :
    List (Nat × AssetRecord × String) → List (Nat × AssetRecord × String)
  | [] => [x]
  | y :: ys => if y.1 ≤ x.1 then x :: y :: ys else y :: insertDesc x ys

/-- Python `sorted(scored, key=lambda x: x[0], reverse=True)`: stable
descending sort on the score component (insertion sort from the right,
which preserves the original order of equal scores). -/
def pySortDesc (l : List (Nat × AssetRecord × String)) : List (Nat × AssetRecord × String) :=
  l.foldr insertDesc []

/-- Hero-context trigger terms of `_score_ciq_assets`. -/
def hero_terms : List String := ["hero", "presentation", "primary", "large display", "marketing"]

/-- Python `s.replace("_", " ")`. -/
def replaceUnderscore (s : String) : String :=
  ⟨s.data.map (fun c => if c = '_' then ' ' else c)⟩

/-- Loop body of `_score_ciq_assets` for one asset: accumulated score and
reason list, in the order the source appends them. -/
def score_ciq_asset (attributes : Attributes) (asset : AssetRecord) : Nat × List String :=
  let p1 : Nat × List String :=
    match attributes.background with
    | some bg => (80, ["perfect " ++ bg.value ++ " background match"])
    | none => (0, [])
  let act := asset.color_type
  let p2 : Nat × List String :=
    match attributes.ciq_color_type with
    | some t =>
      if t.value == act then (100, ["exact " ++ replaceUnderscore t.value ++ " match"])
      else (0, [])
    | none =>
      if act == "1color_neutral" then (90, ["standard CIQ company logo"])
      else if act == "2color" then (70, ["hero CIQ company logo"])
      else if act == "1color_green" then (60, ["standard+ green version"])
      else (0, [])
  let request_lower := pyLower attributes.original_request
  let is_hero_context := hero_terms.any (fun t => strIn t request_lower)
  let p3 : Nat × List String :=
    if is_hero_context && (act == "2color") then (20, ["perfect for hero context"])
    else if !is_hero_context && (act == "1color_neutral") then
      (20, ["ideal for standard applications"])
    else (0, [])
  (p1.1 + p2.1 + p3.1, p1.2 ++ p2.2 ++ p3.2)

/-- `AssetMatcher._score_ciq_assets` (RULE number 2, company type). -/
def score_ciq_assets (assets : List (String × AssetRecord)) (attributes : Attributes) :
    List (Nat × AssetRecord × String) :=
  pySortDesc (assets.filterMap (fun a =>
    let sr := score_ciq_asset attributes a.2
    if sr.1 > 0 then some (sr.1, a.2, joinPlus sr.2) else none))

/-- Background increment of `_score_product_assets` for one asset. -/
def productBgPart (attributes : Attributes) : Nat × List String :=
  match attributes.background with
  | some bg => (80, ["perfect " ++ bg.value ++ " background match"])
  | none => (0, [])

/-- Layout increment of `_score_product_assets` for one asset
(`asset_layout` is the lower-cased layout field). -/
def productLayoutPart (attributes : Attributes) (asset_layout : String) : Nat × List String :=
  match attributes.layout with
  | some t =>
    if t.value == "" then
      if strIn "horizontal" asset_layout then
        (80, ["default horizontal layout (best brand recognition)"])
      else if strIn "icon" asset_layout then (60, ["icon option"])
      else (0, [])
    else if strIn t.value asset_layout then (100, ["exact " ++ t.value ++ " match"])
    else (0, [])
  | none =>
    if strIn "horizontal" asset_layout then
      (80, ["default horizontal layout (best brand recognition)"])
    else if strIn "icon" asset_layout then (60, ["icon option"])
    else (0, [])

/-- Color-correctness increment of `_score_product_assets` for one asset:
black-on-light or white-on-dark earns 20 points and a contrast reason. -/
def productContrastPart (attributes : Attributes) (asset : AssetRecord) : Nat × List String :=
  match attributes.background with
  | some bg =>
    if bg.value == "light" && pyLower asset.color == "black" then
      (20, ["proper dark-on-light contrast"])
    else if bg.value == "dark" && pyLower asset.color == "white" then
      (20, ["proper light-on-dark contrast"])
    else (0, [])
  | none => (0, [])

/-- Loop body of `_score_product_assets` for one asset. -/
def score_product_asset (attributes : Attributes) (asset : AssetRecord) : Nat × List String :=
  let asset_layout := pyLower ((asset.layout).getD "")
  let p1 := productBgPart attributes
  let p2 := productLayoutPart attributes asset_layout
  let p3 := productContrastPart attributes asset
  (p1.1 + p2.1 + p3.1, p1.2 ++ p2.2 ++ p3.2)

/-- `vertical_requested` of `_score_product_assets`: the detected layout
is literally `vertical`. -/
def verticalRequested (attributes : Attributes) : Bool :=
  match attributes.layout with
  | some t => t.value == "vertical"
  | none => false

/-- `AssetMatcher._score_product_assets` (RULE number 2, product type):
vertical layouts are skipped outright unless explicitly requested. -/
def score_product_assets (assets : List (String × AssetRecord)) (attributes : Attributes) :
    List (Nat × AssetRecord × String) :=
  pySortDesc (assets.filterMap (fun a =>
    let asset_layout := pyLower ((a.2.layout).getD "")
    if strIn "vertical" asset_layout && !verticalRequested attributes then none
    else
      let sr := score_product_asset attributes a.2
      if sr.1 > 0 then some (sr.1, a.2, joinPlus sr.2) else none))

/-- `AssetMatcher._generate_product_help` message text. -/
def product_help_message : String :=
  "**CIQ Brand Assets Available:**\n\n**Company Brand:**\n• **CIQ** - Main company logo (3 color types: neutral, green, hero)\n\n**Product Brands:**\n• **Fuzzball** - HPC/AI workload management platform\n• **Warewulf** - HPC cluster provisioning tool  \n• **Apptainer** - Container platform for HPC/scientific workflows\n• **Ascender** - Infrastructure automation platform\n• **Bridge** - CentOS 7 migration solution\n\n**RLC Product Family:**\n• **RLC** - Rocky Linux Commercial (base platform)\n• **RLC-AI** - Rocky Linux Commercial AI-focused platform\n• **RLC-Hardened** - Rocky Linux Commercial security-focused platform\n• **RLC-LTS** - Rocky Linux Commercial long-term support\n\n**Examples:**\n• \"CIQ logo for dark background\" → Direct answer\n• \"Fuzzball logo for light background\" → Direct answer\n• \"RLC-AI vertical logo\" → Specific layout\n• \"Warewulf symbol\" → Icon only\n\nWhich brand asset do you need?"

/-- `AssetMatcher.match_assets`. -/
def match_assets (asset_data : Catalog) (request : String) : MatchResult :=
  let attributes := detect_attributes request
  match attributes.product with
  | none => .help product_help_message
  | some prod =>
    let product_id := prod.value
    let confidence_level := assess_confidence_level attributes.total_confidence
    let pinfo := (List.lookup product_id product_info).getD dummyProductInfo
    let product_assets := (List.lookup pinfo.asset_key asset_data).getD []
    if product_assets.isEmpty then .error ("No assets found for " ++ pinfo.name)
    else
      let filtered := apply_background_filter product_assets attributes
      if filtered.isEmpty then
        .error ("No background-compatible assets found for " ++ pinfo.name)
      else
        let scored :=
          if product_id == "ciq" then score_ciq_assets filtered attributes
          else score_product_assets filtered attributes
        .success pinfo attributes confidence_level scored filtered.length product_assets.length

/-- Python `s.replace("icon", "symbol")`: left-to-right, non-overlapping,
specialised to the one pattern the formatter uses. -/
def replaceIconAux : List Char → List Char
  | 'i' :: 'c' :: 'o' :: 'n' :: rest => 's' :: 'y' :: 'm' :: 'b' :: 'o' :: 'l' :: replaceIconAux rest
  | c :: rest => c :: replaceIconAux rest
  | [] => []

/-- Python `s.replace("icon", "symbol")`. -/
def replaceIcon (s : String) : String :=
  ⟨replaceIconAux s.data⟩

/-- Python `s.title()`: upper-case the first letter of every alphabetic
run, lower-case the rest. -/
def pyTitleAux : Bool → List Char → List Char
  | _, [] => []
  | prevAlpha, c :: cs =>
    (if c.isAlpha then (if prevAlpha then c.toLower else c.toUpper) else c)
      :: pyTitleAux c.isAlpha cs

/-- Python `s.title()`. -/
def pyTitle (s : String) : String :=
  ⟨pyTitleAux false s.data⟩

/-- `ResponseFormatter._format_high_confidence`.  `none` models the
`IndexError` raised by `result['scored_assets'][0]` on an empty list. -/
def format_high_confidence (product : ProductInfo)
    (scored : List (Nat × AssetRecord × String)) (is_ciq : Bool) : Option String :=
  match scored with
  | [] => none
  | (_, asset, reasoning) :: _ =>
    let desc :=
      if is_ciq then
        replaceUnderscore asset.color_type ++ " for " ++ asset.color_mode ++ " backgrounds"
      else replaceIcon ((asset.layout).getD "logo")
    some ("✅ **" ++ product.name ++ " " ++ desc ++ ":**\n\n📎 **Download:** " ++ asset.url ++
      "\n\n💡 **Why this choice:** " ++ reasoning ++ "\n\n📋 **Usage guidance:** " ++
      ((asset.guidance).getD ("Professional " ++ product.name ++ " branding")))

/-- One alternative-option line of `_format_medium_confidence`. -/
def altLine (is_ciq : Bool) (i : Nat) (t : Nat × AssetRecord × String) : String :=
  let desc :=
    if is_ciq then replaceUnderscore t.2.1.color_type
    else replaceIcon ((t.2.1.layout).getD "logo")
  "• **Option " ++ toString i ++ ":** " ++ desc ++ " - " ++ t.2.1.url ++ "\n"

/-- `ResponseFormatter._format_medium_confidence`: top three scored assets,
primary choice plus alternatives.  `none` models the `IndexError` on
`scored_assets[0]` when the scored list is empty. -/
def format_medium_confidence (product : ProductInfo)
    (scored : List (Nat × AssetRecord × String)) (is_ciq : Bool) : Option String :=
  match scored.take 3 with
  | [] => none
  | (_, best_asset, best_reasoning) :: rest =>
    let desc :=
      if is_ciq then replaceUnderscore best_asset.color_type ++ " logo"
      else pyTitle (replaceIcon ((best_asset.layout).getD "logo"))
    let response := "**" ++ product.name ++ " Logo - Top Recommendation:**\n\n" ++
      "✅ **Primary Choice: " ++ desc ++ "**\n• **Download:** " ++ best_asset.url ++
      "\n• **Why:** " ++ best_reasoning ++ "\n\n"
    let response :=
      if rest.isEmpty then response
      else response ++ "**Alternative Options:**\n" ++
        String.join (rest.enum.map (fun it => altLine is_ciq (it.1 + 2) it.2))
    some response

/-- The background clarifying question of `_format_low_confidence`. -/
def low_bg_question (name : String) : String :=
  "🎨 **I found " ++ name ++ " assets for you!**\n\n**What background will this logo be placed on?**\n\n• 🌞 **light** → white, light gray, light colors, most websites\n• 🌙 **dark** → black, dark gray, dark colors, dark photos\n\nThis helps me recommend the right color version for proper contrast."

/-- The CIQ color-type clarifying question of `_format_low_confidence`. -/
def low_ciq_question : String :=
  "✨ **Perfect! For CIQ company logos...**\n\n**Which type works best for your use case?**\n\n🔸 **standard** → 1-color neutral (most applications)\n🟢 **green** → 1-color green (when you need extra punch)\n🌟 **hero** → 2-color (when logo is primary visual element)\n\nWhat's your primary use case?"

/-- The layout clarifying question of `_format_low_confidence`. -/
def low_layout_question (name : String) : String :=
  "✨ **Perfect! For " ++ name ++ " logos...**\n\n**Which layout works best for your use case?**\n\n🔸 **horizontal** → Symbol + text side-by-side (headers, business cards)\n⚫ **symbol** → Icon only (tight spaces, favicons)\n\n💡 Need vertical? Just ask for \"vertical layout\" specifically!\n\nWhat's your primary use case?"

/-- `ResponseFormatter._format_low_confidence`: one clarifying question,
background first, else type/layout, else fall through to the medium
format. -/
def format_low_confidence (product : ProductInfo) (attributes : Attributes)
    (scored : List (Nat × AssetRecord × String)) (is_ciq : Bool) : Option String :=
  if attributes.background.isNone then some (low_bg_question product.name)
  else if is_ciq && attributes.ciq_color_type.isNone then some low_ciq_question
  else if !is_ciq && attributes.layout.isNone then some (low_layout_question product.name)
  else format_medium_confidence product scored is_ciq

/-- `ResponseFormatter.format_response`. -/
def format_response (r : MatchResult) : Option String :=
  match r with
  | .help msg => some msg
  | .error msg => some ("❌ " ++ msg)
  | .success product attributes confidence_level scored _ _ =>
    let is_ciq := pyLower product.name == "ciq"
    if confidence_level == "high" then format_high_confidence product scored is_ciq
    else if confidence_level == "medium" then format_medium_confidence product scored is_ciq
    else format_low_confidence product attributes scored is_ciq

/-- The message returned when `load_asset_data` fails. -/
def load_failed_message : String := "❌ Sorry, couldn't load brand assets data."

/-- `get_brand_asset` writing `original_request` into the attributes of a
success result, as done after matching. -/
def set_original_request (r : MatchResult) (request : String) : MatchResult :=
  match r with
  | .success p a cl s fc oc => .success p { a with original_request := request } cl s fc oc
  | other => other

/-- The `get_brand_asset` tool.  `asset_data` is the module cache after
the (possibly failed) inventory fetch: `none` means the fetch failed.  A
non-empty explicit `background` argument is appended to the request text
before matching.  The outer `none` models an uncaught exception. -/
def get_brand_asset (asset_data : Option Catalog) (request : String)
    (background : Option String) : Option String :=
  match asset_data with
  | none => some load_failed_message
  | some data =>
    let request :=
      match background with
      | some bg => if bg == "" then request else request ++ " for " ++ bg ++ " background"
      | none => request
    let match_result := match_assets data request
    let match_result := set_original_request match_result request
    format_response match_result

/-! Reference formulations of product detection, used to state what the
scoring loop of `_detect_product` computes. -/

/-- Contribution of one matching keyword as the code computes it: 10
points per token plus a flat 20-point bonus for `rlc-` product ids. -/
def keywordContribution (product pattern : String) : Nat :=
  10 * pyWordCount pattern + (if pyStartsWith product "rlc-" then 20 else 0)

/-- Modelled from the spec claim wording only: a contribution exactly
proportional to the keyword's token length, with no product bonus. -/
def claimedContribution (pattern : String) : Nat :=
  10 * pyWordCount pattern

/-- Maximum value occurring in a score table (0 when empty). -/
def maxVal (l : List (String × Nat)) : Nat :=
  l.foldr (fun y m => max y.2 m) 0

/-- The first entry attaining the maximal value: highest score wins and
ties go to the earlier (first-registered) entry. -/
def firstMax (l : List (String × Nat)) : Option (String × Nat) :=
  l.find? (fun y => y.2 == maxVal l)

/-- Score table built from a given per-keyword contribution function:
sum the contributions of the matching keywords, keep positive scores
only, cap at 50. -/
def spec_scores (contribution : String → String → Nat) (request : String) :
    List (String × Nat) :=
  product_patterns.filterMap (fun pp =>
    let s := ((pp.2.filter (fun q => strIn q request)).map (contribution pp.1)).sum
    if s > 0 then some (pp.1, min s 50) else none)

/-- Product detection restated declaratively with the code's keyword
contribution (token length times 10 plus the `rlc-` bonus). -/
def detect_product_spec (request : String) : Option AttrVal :=
  (firstMax (spec_scores keywordContribution request)).map (fun x => ⟨x.1, x.2⟩)

/-- Product detection as the claim words it: proportional contributions
only, cap at 50, highest total wins, first-registered tie-break. -/
def detect_product_claimed (request : String) : Option AttrVal :=
  (firstMax (spec_scores (fun _ q => claimedContribution q) request)).map (fun x => ⟨x.1, x.2⟩)

/-! Concrete catalogs used as witnesses and counterexamples. -/

/-- A catalog state in which the only background-compatible Fuzzball
asset is a vertical lockup. -/
def crashCatalog : Catalog :=
  [("fuzzball_logos",
    [("fuzzball_vertical_dark",
      { url := "https://e/fuzzball-v-dark.svg", background := "dark",
        layout := some "vertical", color := "white" })])]

/-- A light horizontal RLC asset. -/
def rlcHLight : AssetRecord :=
  { url := "https://e/rlc-h-light.svg", background := "light",
    layout := some "horizontal", color := "black" }

/-- A small RLC catalog with one light horizontal asset. -/
def rlcCatalog : Catalog :=
  [("rlc_logos", [("rlc_h_light", rlcHLight)])]

/-- A light horizontal Bridge asset. -/
def bridgeHLight : AssetRecord :=
  { url := "https://e/bridge-h-light.svg", background := "light",
    layout := some "horizontal", color := "black" }

/-- A dark horizontal Bridge asset. -/
def bridgeHDark : AssetRecord :=
  { url := "https://e/bridge-h-dark.svg", background := "dark",
    layout := some "horizontal", color := "white" }

/-- A small Bridge catalog with one asset of each background. -/
def bridgeCatalog : Catalog :=
  [("bridge_logos",
    [("bridge_h_light", bridgeHLight), ("bridge_h_dark", bridgeHDark)])]

/-- A light horizontal Fuzzball asset. -/
def fbHLight : AssetRecord :=
  { url := "https://e/fb-h-light.svg", background := "light",
    layout := some "horizontal", color := "black" }

/-- A dark horizontal Fuzzball asset. -/
def fbHDark : AssetRecord :=
  { url := "https://e/fb-h-dark.svg", background := "dark",
    layout := some "horizontal", color := "white" }

/-- A dark vertical Fuzzball asset. -/
def fbVDark : AssetRecord :=
  { url := "https://e/fb-v-dark.svg", background := "dark",
    layout := some "vertical", color := "white" }

/-- A dark icon Fuzzball asset. -/
def fbIconDark : AssetRecord :=
  { url := "https://e/fb-icon-dark.svg", background := "dark",
    layout := some "icon", color := "white" }

/-- A Fuzzball catalog mixing backgrounds and layouts. -/
def fuzzballCatalog : Catalog :=
  [("fuzzball_logos",
    [("fuzzball_h_light", fbHLight), ("fuzzball_h_dark", fbHDark),
     ("fuzzball_v_dark", fbVDark), ("fuzzball_icon_dark", fbIconDark)])]

/-- A Warewulf catalog whose assets are all designed for light
backgrounds. -/
def lightOnlyWarewulfCatalog : Catalog :=
  [("warewulf_pro_logos",
    [("warewulf_h_light",
      { url := "https://e/ww-h-light.svg", background := "light",
        layout := some "horizontal", color := "black" })])]

/-- A CIQ company asset whose color is the contrast-correct choice for a
light background. -/
def ciqNeutralAsset : AssetRecord :=
  { url := "https://e/ciq-neutral-light.svg", background := "light",
    color := "black", color_type := "1color_neutral", color_mode := "light" }

/-! General lemmas about the string and list helpers. -/

theorem strIn_iff {p s : String} : strIn p s = true ↔ p.data <:+: s.data := by
  simp [strIn]

theorem strIn_of_infix {p s : String} (h : p.data <:+: s.data) : strIn p s = true :=
  strIn_iff.mpr h

/-- Every element of a reason list is a contiguous substring of the
`" + "`-joined reason string. -/
theorem infix_joinPlus : ∀ (l : List String), ∀ x ∈ l, x.data <:+: (joinPlus l).data := by
  intro l
  induction l with
  | nil => intro x hx; cases hx
  | cons y ys ih =>
    intro x hx
    cases ys with
    | nil =>
      rcases List.mem_cons.mp hx with h | h
      · subst h; simp [joinPlus]
      · cases h
    | cons z t =>
      rcases List.mem_cons.mp hx with h | h
      · subst h
        show x.data <:+: (joinPlus (x :: z :: t)).data
        simp only [joinPlus, String.data_append]
        exact (List.prefix_append x.data _).isInfix
      · have hrec := ih x h
        show x.data <:+: (joinPlus (y :: z :: t)).data
        simp only [joinPlus, String.data_append]
        exact hrec.trans ((List.suffix_append _ _).isInfix.trans
          ((List.suffix_append y.data _).isInfix))

theorem mem_insertDesc {t x : Nat × AssetRecord × String} :
    ∀ {l : List (Nat × AssetRecord × String)}, t ∈ insertDesc x l ↔ t = x ∨ t ∈ l := by
  intro l
  induction l with
  | nil => simp [insertDesc]
  | cons y ys ih =>
    unfold insertDesc
    by_cases hc : y.1 ≤ x.1
    · rw [if_pos hc]
      simp
    · rw [if_neg hc]
      simp only [List.mem_cons, ih]
      tauto

theorem mem_pySortDesc {t : Nat × AssetRecord × String} {l : List (Nat × AssetRecord × String)} :
    t ∈ pySortDesc l ↔ t ∈ l := by
  unfold pySortDesc
  induction l with
  | nil => simp
  | cons y ys ih =>
    rw [List.foldr_cons, mem_insertDesc, ih]
    simp

/-- Records surviving the background hard filter belong to the input and
carry exactly the requested background. -/
theorem apply_background_filter_mem {assets : List (String × AssetRecord)}
    {attrs : Attributes} {bg : AttrVal} {x : String × AssetRecord}
    (hbg : attrs.background = some bg) (hx : x ∈ apply_background_filter assets attrs) :
    x ∈ assets ∧ pyLower x.2.background = bg.value := by
  unfold apply_background_filter at hx
  rw [hbg] at hx
  simpa using hx

/-- Every scored triple of the product scorer comes from an input record,
and that record is non-vertical unless vertical was requested. -/
theorem score_product_assets_mem {assets : List (String × AssetRecord)} {attrs : Attributes}
    {t : Nat × AssetRecord × String} (h : t ∈ score_product_assets assets attrs) :
    ∃ k, (k, t.2.1) ∈ assets ∧
      (strIn "vertical" (pyLower ((t.2.1.layout).getD "")) = false ∨
       verticalRequested attrs = true) := by
  unfold score_product_assets at h
  rw [mem_pySortDesc] at h
  rcases List.mem_filterMap.mp h with ⟨a, ha, hfa⟩
  simp only [] at hfa
  split at hfa
  · cases hfa
  · rename_i hskip
    split at hfa
    · injection hfa with hfa'
      have ht : t.2.1 = a.2 := by rw [← hfa']
      refine ⟨a.1, by rw [ht]; exact ha, ?_⟩
      rw [ht]
      cases hb : strIn "vertical" (pyLower ((a.2.layout).getD "")) with
      | false => exact Or.inl rfl
      | true =>
        cases hv : verticalRequested attrs with
        | true => exact Or.inr rfl
        | false => exact absurd (by simp [hb, hv]) hskip
    · cases hfa

/-- Every scored triple of the CIQ scorer comes from an input record. -/
theorem score_ciq_assets_mem {assets : List (String × AssetRecord)} {attrs : Attributes}
    {t : Nat × AssetRecord × String} (h : t ∈ score_ciq_assets assets attrs) :
    ∃ k, (k, t.2.1) ∈ assets := by
  unfold score_ciq_assets at h
  rw [mem_pySortDesc] at h
  rcases List.mem_filterMap.mp h with ⟨a, ha, hfa⟩
  simp only [] at hfa
  split at hfa
  · injection hfa with hfa'
    have ht : t.2.1 = a.2 := by rw [← hfa']
    exact ⟨a.1, by rw [ht]; exact ha⟩
  · cases hfa

theorem maxVal_cons (y : String × Nat) (l : List (String × Nat)) :
    maxVal (y :: l) = max y.2 (maxVal l) := rfl

/-- A non-zero maximum is attained by some entry. -/
theorem maxVal_attained : ∀ (l : List (String × Nat)),
    maxVal l = 0 ∨ ∃ z ∈ l, z.2 = maxVal l := by
  intro l
  induction l with
  | nil => exact Or.inl rfl
  | cons y ys ih =>
    rw [maxVal_cons]
    rcases Nat.le_total (maxVal ys) y.2 with hle | hle
    · exact Or.inr ⟨y, List.mem_cons_self y ys, (Nat.max_eq_left hle).symm⟩
    · rcases ih with h0 | ⟨z, hz, hzm⟩
      · rw [h0]
        exact Or.inr ⟨y, List.mem_cons_self y ys, (Nat.max_eq_left (Nat.zero_le _)).symm⟩
      · exact Or.inr ⟨z, List.mem_cons_of_mem y hz, by rw [Nat.max_eq_right hle, hzm]⟩

/-- The fold of `pyStep` keeps the seed while nothing beats it strictly,
and otherwise lands on the first entry attaining the maximum. -/
theorem foldl_pyStep_eq : ∀ (xs : List (String × Nat)) (x : String × Nat),
    xs.foldl pyStep x =
      if maxVal xs ≤ x.2 then x else (xs.find? (fun y => y.2 == maxVal xs)).getD x := by
  intro xs
  induction xs with
  | nil => intro x; simp [maxVal]
  | cons y ys ih =>
    intro x
    rw [List.foldl_cons]
    rcases Nat.lt_or_ge x.2 y.2 with hyx | hyx
    · have hstep : pyStep x y = y := by unfold pyStep; rw [if_pos (by omega)]
      rw [hstep, ih y]
      have hmax : ¬ (maxVal (y :: ys) ≤ x.2) := by
        rw [maxVal_cons]
        have := Nat.le_max_left y.2 (maxVal ys)
        omega
      rw [if_neg hmax]
      rcases Nat.lt_trichotomy (maxVal ys) y.2 with h | h | h
      · have hm : maxVal (y :: ys) = y.2 := by
          rw [maxVal_cons]; exact Nat.max_eq_left (Nat.le_of_lt h)
        rw [if_pos (Nat.le_of_lt h), hm, List.find?_cons_of_pos _ (by simp), Option.getD_some]
      · have hm : maxVal (y :: ys) = y.2 := by
          rw [maxVal_cons, ← h, Nat.max_self]
        rw [if_pos (Nat.le_of_eq h), hm, List.find?_cons_of_pos _ (by simp), Option.getD_some]
      · have hm : maxVal (y :: ys) = maxVal ys := by
          rw [maxVal_cons]; exact Nat.max_eq_right (Nat.le_of_lt h)
        have hne : y.2 ≠ maxVal ys := Nat.ne_of_lt h
        rw [if_neg (Nat.not_le_of_lt h), hm, List.find?_cons_of_neg _ (by simp [hne])]
        rcases maxVal_attained ys with h0 | ⟨z, hz, hzm⟩
        · rw [h0] at h; exact absurd h (Nat.not_lt_zero _)
        · have hsome : (ys.find? (fun w => w.2 == maxVal ys)).isSome :=
            List.find?_isSome.mpr ⟨z, hz, by simp [hzm]⟩
          rcases Option.isSome_iff_exists.mp hsome with ⟨w, hw⟩
          rw [hw, Option.getD_some, Option.getD_some]
    · have hstep : pyStep x y = x := by unfold pyStep; rw [if_neg (by omega)]
      rw [hstep, ih x]
      by_cases hys : maxVal ys ≤ x.2
      · have hc : maxVal (y :: ys) ≤ x.2 := by
          rw [maxVal_cons]; exact Nat.max_le.mpr ⟨hyx, hys⟩
        rw [if_pos hys, if_pos hc]
      · have hlt : x.2 < maxVal ys := Nat.lt_of_not_le hys
        have hym : y.2 ≤ maxVal ys := Nat.le_trans hyx (Nat.le_of_lt hlt)
        have hm : maxVal (y :: ys) = maxVal ys := by
          rw [maxVal_cons]; exact Nat.max_eq_right hym
        have hc : ¬ (maxVal (y :: ys) ≤ x.2) := by rw [hm]; exact hys
        have hne : y.2 ≠ maxVal ys := by omega
        rw [if_neg hys, if_neg hc, hm, List.find?_cons_of_neg _ (by simp [hne])]

/-- Python's `max(..., key=scores.get)` is the first entry attaining the
maximal value. -/
theorem pyMaxByVal_eq_firstMax (l : List (String × Nat)) : pyMaxByVal l = firstMax l := by
  cases l with
  | nil => rfl
  | cons x xs =>
    have hL : pyMaxByVal (x :: xs) = some (xs.foldl pyStep x) := rfl
    rw [hL, foldl_pyStep_eq]
    unfold firstMax
    by_cases hle : maxVal xs ≤ x.2
    · have hm : maxVal (x :: xs) = x.2 := by
        rw [maxVal_cons]; exact Nat.max_eq_left hle
      rw [if_pos hle, hm, List.find?_cons_of_pos _ (by simp)]
    · have hlt : x.2 < maxVal xs := Nat.lt_of_not_le hle
      have hm : maxVal (x :: xs) = maxVal xs := by
        rw [maxVal_cons]; exact Nat.max_eq_right (Nat.le_of_lt hlt)
      have hne : x.2 ≠ maxVal xs := by omega
      rw [if_neg hle, hm, List.find?_cons_of_neg _ (by simp [hne])]
      rcases maxVal_attained xs with h0 | ⟨z, hz, hzm⟩
      · rw [h0] at hlt; exact absurd hlt (Nat.not_lt_zero _)
      · have hsome : (xs.find? (fun w => w.2 == maxVal xs)).isSome :=
          List.find?_isSome.mpr ⟨z, hz, by simp [hzm]⟩
        rcases Option.isSome_iff_exists.mp hsome with ⟨w, hw⟩
        rw [hw, Option.getD_some]

/-- The accumulation loop of `_detect_product` computes the sum of the
per-keyword contributions of the matching keywords. -/
theorem productRawScore_aux (request p : String) : ∀ (pats : List String) (acc : Nat),
    pats.foldl (fun score pattern =>
      if strIn pattern request then
        score + (10 * pyWordCount pattern +
          (if pyStartsWith p "rlc-" && strIn pattern request then 20 else 0))
      else score) acc
    = acc + ((pats.filter (fun q => strIn q request)).map (keywordContribution p)).sum := by
  intro pats
  induction pats with
  | nil => intro acc; simp
  | cons q qs ih =>
    intro acc
    simp only [List.foldl_cons]
    cases hq : strIn q request with
    | false =>
      rw [if_neg (by simp), ih, List.filter_cons_of_neg (by simp [hq])]
    | true =>
      rw [if_pos rfl, ih, List.filter_cons_of_pos (by simp [hq]), List.map_cons,
        List.sum_cons]
      simp only [Bool.and_true, keywordContribution]
      omega

theorem productRawScore_eq (request p : String) (pats : List String) :
    productRawScore request p pats =
      ((pats.filter (fun q => strIn q request)).map (keywordContribution p)).sum := by
  have h := productRawScore_aux request p pats 0
  rw [Nat.zero_add] at h
  exact h

theorem productScores_eq (request : String) :
    productScores request = spec_scores keywordContribution request := by
  unfold productScores spec_scores
  congr 1
  funext pp
  rw [productRawScore_eq]

/-- The color-type detector only ever returns one of the three
registered type ids, always with 40 points. -/
theorem detect_ciq_color_type_values (r : String) :
    detect_ciq_color_type r = none ∨
    detect_ciq_color_type r = some ⟨"1color_neutral", 40⟩ ∨
    detect_ciq_color_type r = some ⟨"1color_green", 40⟩ ∨
    detect_ciq_color_type r = some ⟨"2color", 40⟩ := by
  simp only [detect_ciq_color_type, ciq_color_type_patterns, firstPatternMatch]
  split_ifs <;> simp

/-- The color-type attribute of a detected request is one of the three
registered type ids. -/
theorem detect_attributes_cct_values (request : String) :
    (detect_attributes request).ciq_color_type = none ∨
    (detect_attributes request).ciq_color_type = some ⟨"1color_neutral", 40⟩ ∨
    (detect_attributes request).ciq_color_type = some ⟨"1color_green", 40⟩ ∨
    (detect_attributes request).ciq_color_type = some ⟨"2color", 40⟩ :=
  detect_ciq_color_type_values (pyLower request)

/-- Formatting a low-confidence success with no detected background
yields exactly the background clarifying question, whatever the scored
list is. -/
theorem format_response_low_bg (pinfo : ProductInfo) (A : Attributes)
    (S : List (Nat × AssetRecord × String)) (fc oc : Nat)
    (hbg : A.background = none) :
    format_response (.success pinfo A "low" S fc oc) = some (low_bg_question pinfo.name) := by
  simp only [format_response]
  rw [if_neg (by decide), if_neg (by decide)]
  simp only [format_low_confidence, hbg, Option.isNone_none, if_true]

/-- Inversion of a successful `match_assets` call: the attribute set, the
confidence level, and the scored list are exactly the detector output,
the assessed level, and the appropriate scorer applied to the filtered
assets. -/
theorem match_assets_success_inv {data : Catalog} {request : String} {p : ProductInfo}
    {attrs : Attributes} {cl : String} {scored : List (Nat × AssetRecord × String)}
    {fc oc : Nat}
    (h : match_assets data request = .success p attrs cl scored fc oc) :
    ∃ prod,
      attrs = detect_attributes request ∧
      (detect_attributes request).product = some prod ∧
      p = (List.lookup prod.value product_info).getD dummyProductInfo ∧
      cl = assess_confidence_level (detect_attributes request).total_confidence ∧
      scored = (if prod.value == "ciq"
        then score_ciq_assets
          (apply_background_filter ((List.lookup p.asset_key data).getD [])
            (detect_attributes request)) (detect_attributes request)
        else score_product_assets
          (apply_background_filter ((List.lookup p.asset_key data).getD [])
            (detect_attributes request)) (detect_attributes request)) := by
  simp only [match_assets] at h
  split at h
  · cases h
  · rename_i prod hprod
    split at h
    · cases h
    · split at h
      · cases h
      · injection h with h1 h2 h3 h4 h5 h6
        exact ⟨prod, h2.symm, hprod, h1.symm, h3.symm, by rw [← h4, ← h1]⟩

/-! Claim theorems. -/

/-- C1: whenever a background attribute was detected, every AssetRecord
in the scored result of a successful match carries exactly the requested
background — the hard filter runs before scoring, so an asset with a
different background is never a candidate regardless of its layout
score. -/
theorem C1_background_filter_is_hard (data : Catalog) (request : String)
    (p : ProductInfo) (attrs : Attributes) (cl : String)
    (scored : List (Nat × AssetRecord × String)) (fc oc : Nat) (bg : AttrVal)
    (hmatch : match_assets data request = .success p attrs cl scored fc oc)
    (hbg : attrs.background = some bg) :
    ∀ t ∈ scored, pyLower t.2.1.background = bg.value := by
  intro t ht
  rcases match_assets_success_inv hmatch with ⟨prod, hattrs, hprod, hp, hcl, hscored⟩
  subst hattrs
  rw [hscored] at ht
  by_cases hciq : (prod.value == "ciq") = true
  · rw [if_pos hciq] at ht
    rcases score_ciq_assets_mem ht with ⟨k, hk⟩
    exact (apply_background_filter_mem hbg hk).2
  · rw [if_neg hciq] at ht
    rcases score_product_assets_mem ht with ⟨k, hk, _⟩
    exact (apply_background_filter_mem hbg hk).2

/-- Witness for C1 at a concrete catalog and request. -/
theorem C1_background_filter_witness : pyLower bridgeHDark.background = "dark" := by
  have h := C1_background_filter_is_hard bridgeCatalog "bridge dark"
    ⟨"Bridge", "CentOS 7 migration solution", "product", "bridge_logos"⟩
    (detect_attributes "bridge dark") "medium"
    [(180, bridgeHDark, "perfect dark background match + default horizontal layout (best brand recognition) + proper light-on-dark contrast")]
    1 2 ⟨"dark", 60⟩ (by decide) (by decide)
  exact h (180, bridgeHDark, "perfect dark background match + default horizontal layout (best brand recognition) + proper light-on-dark contrast")
    (by decide)

/-- C2: with a resolved product, the matcher returns the explicit
"no background-compatible assets" error when the hard filter empties the
candidate set, and the explicit "no assets" error when the product has
zero assets; both name the product, the former names the missing
criterion, and the formatted error is distinct from the data-unavailable
message. -/
theorem C2_no_compatible_assets_error (data : Catalog) (request : String)
    (pr : AttrVal) (pinfo : ProductInfo)
    (hprod : (detect_attributes request).product = some pr)
    (hinfo : List.lookup pr.value product_info = some pinfo) :
    (((List.lookup pinfo.asset_key data).getD []) = [] →
      match_assets data request = .error ("No assets found for " ++ pinfo.name)) ∧
    (((List.lookup pinfo.asset_key data).getD []) ≠ [] →
      apply_background_filter ((List.lookup pinfo.asset_key data).getD [])
        (detect_attributes request) = [] →
      match_assets data request =
        .error ("No background-compatible assets found for " ++ pinfo.name)) ∧
    strIn pinfo.name ("No background-compatible assets found for " ++ pinfo.name) = true ∧
    strIn "background-compatible"
      ("No background-compatible assets found for " ++ pinfo.name) = true ∧
    ("❌ " ++ ("No background-compatible assets found for " ++ pinfo.name)) ≠
      load_failed_message := by
  refine ⟨?_, ?_, ?_, ?_, ?_⟩
  · intro h0
    simp [match_assets, hprod, hinfo, h0]
  · intro h0 h1
    simp [match_assets, hprod, hinfo, List.isEmpty_iff, h0, h1]
  · apply strIn_of_infix
    rw [String.data_append]
    exact (List.suffix_append _ _).isInfix
  · apply strIn_of_infix
    rw [String.data_append]
    have h1 : "background-compatible".data <:+:
        ("No background-compatible assets found for ").data := by decide
    exact h1.trans (List.prefix_append _ _).isInfix
  · intro h
    have h2 := congrArg (fun l => l[2]?) (congrArg String.data h)
    simp only [String.data_append, ← List.append_assoc] at h2
    rw [List.getElem?_append_left (by decide)] at h2
    exact absurd h2 (by decide)

/-- Witness for C2: a Warewulf catalog whose only asset is designed for
light backgrounds, asked for a dark one. -/
theorem C2_no_compatible_assets_witness :
    match_assets lightOnlyWarewulfCatalog "warewulf dark" =
      .error ("No background-compatible assets found for " ++ "Warewulf") ∧
    ("❌ " ++ ("No background-compatible assets found for " ++ "Warewulf")) ≠
      load_failed_message := by
  have h := C2_no_compatible_assets_error lightOnlyWarewulfCatalog "warewulf dark"
    ⟨"warewulf", 10⟩
    ⟨"Warewulf", "HPC cluster provisioning tool", "product", "warewulf_pro_logos"⟩
    (by decide) (by decide)
  exact ⟨h.2.1 (by decide) (by decide), h.2.2.2.2⟩

/-- C3: the claimed "never throws" property fails.  On a catalog state
whose only background-compatible Fuzzball asset is vertical, the scored
list is empty, the medium-confidence formatter indexes `scored_assets[0]`
and the modelled exception (`none`) escapes `get_brand_asset`; the
fetch-failure half of the claim does hold and returns the unavailability
message. -/
theorem C3_formatter_crash_on_empty_scored :
    get_brand_asset (some crashCatalog) "fuzzball dark" none = none ∧
    get_brand_asset none "anything" none = some load_failed_message := by
  constructor
  · decide
  · rfl

/-- C4: on "Fuzzball symbol for dark background" the detector does
resolve product=fuzzball, layout=icon and background=dark, but the
summed confidence is 10+60+30 = 100 < 110, so the assessed level is
"medium" — not "high" as claimed — and the matcher carries two scored
candidates into the medium-confidence format rather than exactly one. -/
theorem C4_scenario_c_is_medium_not_high :
    (detect_attributes "Fuzzball symbol for dark background").product =
      some ⟨"fuzzball", 10⟩ ∧
    (detect_attributes "Fuzzball symbol for dark background").background =
      some ⟨"dark", 60⟩ ∧
    (detect_attributes "Fuzzball symbol for dark background").layout = some ⟨"icon", 30⟩ ∧
    (detect_attributes "Fuzzball symbol for dark background").total_confidence = 100 ∧
    assess_confidence_level 100 = "medium" ∧
    match_assets fuzzballCatalog "Fuzzball symbol for dark background" =
      .success ⟨"Fuzzball", "HPC/AI workload management platform", "product", "fuzzball_logos"⟩
        (detect_attributes "Fuzzball symbol for dark background") "medium"
        [(200, fbIconDark,
          "perfect dark background match + exact icon match + proper light-on-dark contrast"),
         (100, fbHDark, "perfect dark background match + proper light-on-dark contrast")]
        3 4 := by
  refine ⟨by decide, by decide, by decide, by decide, by decide, by decide⟩

/-- C7: the explicit background argument does not take precedence over
text-parsed background: it is merely appended to the request text, and
because the light keyword class is scanned first, a light-class keyword
("white") in the text wins over the explicit "dark" — the pipeline
filters to the light-background asset. -/
theorem C7_background_override_not_precedence :
    get_brand_asset (some fuzzballCatalog) "white fuzzball logo" (some "dark") =
      get_brand_asset (some fuzzballCatalog) "white fuzzball logo for dark background" none ∧
    (detect_attributes "white fuzzball logo for dark background").background =
      some ⟨"light", 60⟩ ∧
    match_assets fuzzballCatalog "white fuzzball logo for dark background" =
      .success ⟨"Fuzzball", "HPC/AI workload management platform", "product", "fuzzball_logos"⟩
        (detect_attributes "white fuzzball logo for dark background") "medium"
        [(180, fbHLight,
          "perfect light background match + default horizontal layout (best brand recognition) + proper dark-on-light contrast")]
        1 4 := by
  refine ⟨rfl, by decide, by decide⟩

/-- C10: background detection scans the light class before the dark
class, so any input containing keywords of both classes detects `light`,
never `dark`. -/
theorem C10_light_class_scanned_first (request : String)
    (hl : (["light", "white", "light background"].any (fun p => strIn p request)) = true)
    (_hd : (["dark", "black", "dark background"].any (fun p => strIn p request)) = true) :
    detect_background request = some ⟨"light", 60⟩ := by
  simp only [detect_background, background_patterns, firstPatternMatch, hl]
  rfl

/-- Witness for C10: a request for a white logo on a dark background is
detected as light. -/
theorem C10_light_class_witness :
    detect_background "white logo for dark background" = some ⟨"light", 60⟩ :=
  C10_light_class_scanned_first "white logo for dark background" (by decide) (by decide)

/-- C5 counterexample: "rocky linux commercial hardened" contains only
product keywords (no background, layout or variant keyword fires), yet
the accumulated product score reaches the 50-point cap, so the level is
"medium", the medium-confidence formatter answers with a recommendation,
and no clarifying question is asked at all. -/
theorem C5_counterexample_product_only_medium :
    (detect_attributes "rocky linux commercial hardened").product = some ⟨"rlc", 50⟩ ∧
    (detect_attributes "rocky linux commercial hardened").background = none ∧
    (detect_attributes "rocky linux commercial hardened").layout = none ∧
    (detect_attributes "rocky linux commercial hardened").ciq_color_type = none ∧
    assess_confidence_level
      (detect_attributes "rocky linux commercial hardened").total_confidence = "medium" ∧
    get_brand_asset (some rlcCatalog) "rocky linux commercial hardened" none =
      some ("**RLC Logo - Top Recommendation:**\n\n✅ **Primary Choice: Horizontal**\n• **Download:** https://e/rlc-h-light.svg\n• **Why:** default horizontal layout (best brand recognition)\n\n") ∧
    strIn "?"
      ("**RLC Logo - Top Recommendation:**\n\n✅ **Primary Choice: Horizontal**\n• **Download:** https://e/rlc-h-light.svg\n• **Why:** default horizontal layout (best brand recognition)\n\n") = false := by
  refine ⟨by decide, by decide, by decide, by decide, by decide, ?_, ?_⟩
  · set_option maxRecDepth 4000 in decide
  · set_option maxRecDepth 4000 in decide

/-- C5 amended: for every request in which a product keyword is
recognised, no background, layout or color-type keyword fires, and the
accumulated confidence stays below 50 (so the level is actually low), a
product with a non-empty catalog gets a low-confidence result whose
response is exactly the single background clarifying question — never a
layout or variant question. -/
theorem C5_amended_low_confidence_asks_background (data : Catalog) (request : String)
    (pr : AttrVal) (pinfo : ProductInfo)
    (hprod : (detect_attributes request).product = some pr)
    (hbg : (detect_attributes request).background = none)
    (_hlay : (detect_attributes request).layout = none)
    (_hcct : (detect_attributes request).ciq_color_type = none)
    (hlow : (detect_attributes request).total_confidence < 50)
    (hinfo : List.lookup pr.value product_info = some pinfo)
    (hassets : ((List.lookup pinfo.asset_key data).getD []) ≠ []) :
    (∃ scored fc oc, match_assets data request =
        .success pinfo (detect_attributes request) "low" scored fc oc) ∧
    format_response (match_assets data request) = some (low_bg_question pinfo.name) := by
  have hcl : assess_confidence_level (detect_attributes request).total_confidence = "low" := by
    unfold assess_confidence_level
    rw [if_neg (by omega), if_neg (by omega)]
  have hfilter : apply_background_filter ((List.lookup pinfo.asset_key data).getD [])
      (detect_attributes request) = ((List.lookup pinfo.asset_key data).getD []) := by
    unfold apply_background_filter
    rw [hbg]
  have hmatch : match_assets data request = .success pinfo (detect_attributes request) "low"
      (if pr.value == "ciq" then
        score_ciq_assets ((List.lookup pinfo.asset_key data).getD [])
          (detect_attributes request)
       else
        score_product_assets ((List.lookup pinfo.asset_key data).getD [])
          (detect_attributes request))
      ((List.lookup pinfo.asset_key data).getD []).length
      ((List.lookup pinfo.asset_key data).getD []).length := by
    simp [match_assets, hprod, hinfo, hfilter, List.isEmpty_iff, hassets, hcl]
  refine ⟨⟨_, _, _, hmatch⟩, ?_⟩
  rw [hmatch]
  exact format_response_low_bg pinfo (detect_attributes request) _ _ _ hbg

/-- Witness for the amended C5 at a concrete catalog and request. -/
theorem C5_amended_witness :
    format_response (match_assets bridgeCatalog "bridge") = some (low_bg_question "Bridge") := by
  have h := C5_amended_low_confidence_asks_background bridgeCatalog "bridge"
    ⟨"bridge", 10⟩ ⟨"Bridge", "CentOS 7 migration solution", "product", "bridge_logos"⟩
    (by decide) (by decide) (by decide) (by decide) (by decide) (by decide) (by decide)
  exact h.2

/-- C6: against a product-type catalog (any product other than the
company brand), when the user did not explicitly request a vertical
layout, no vertical-layout AssetRecord appears anywhere in the scored
result list — neither as the top answer nor as an alternative. -/
theorem C6_no_vertical_unless_requested (data : Catalog) (request : String)
    (p : ProductInfo) (attrs : Attributes) (cl : String)
    (scored : List (Nat × AssetRecord × String)) (fc oc : Nat) (pr : AttrVal)
    (hmatch : match_assets data request = .success p attrs cl scored fc oc)
    (hprod : attrs.product = some pr)
    (hnotciq : pr.value ≠ "ciq")
    (hnovert : verticalRequested attrs = false) :
    ∀ t ∈ scored, strIn "vertical" (pyLower ((t.2.1.layout).getD "")) = false := by
  intro t ht
  rcases match_assets_success_inv hmatch with ⟨prod, hattrs, hprodd, hp, hcl, hscored⟩
  subst hattrs
  rw [hprodd] at hprod
  injection hprod with hpr
  subst hpr
  rw [hscored, if_neg (by simpa using hnotciq)] at ht
  rcases score_product_assets_mem ht with ⟨k, hk, hcond⟩
  rcases hcond with h1 | h1
  · exact h1
  · rw [hnovert] at h1
    cases h1

/-- Witness for C6: the dark-background Fuzzball request returns the
horizontal and icon assets but never the vertical one. -/
theorem C6_no_vertical_witness :
    strIn "vertical" (pyLower ((fbIconDark.layout).getD "")) = false := by
  have h := C6_no_vertical_unless_requested fuzzballCatalog "fuzzball dark"
    ⟨"Fuzzball", "HPC/AI workload management platform", "product", "fuzzball_logos"⟩
    (detect_attributes "fuzzball dark") "medium"
    [(180, fbHDark,
      "perfect dark background match + default horizontal layout (best brand recognition) + proper light-on-dark contrast"),
     (160, fbIconDark, "perfect dark background match + icon option + proper light-on-dark contrast")]
    3 4 ⟨"fuzzball", 10⟩ (by decide) (by decide) (by decide) (by decide)
  exact h (160, fbIconDark,
    "perfect dark background match + icon option + proper light-on-dark contrast") (by decide)

/-- C8 counterexample: on request "rlc-ai" the matching keyword "rlc-ai"
has one token yet contributes 30 points (the undocumented flat 20-point
bonus for `rlc-` products), so the code picks rlc-ai with confidence 30,
while the claimed proportional scoring would tie rlc and rlc-ai at 10
and pick the first-registered rlc. -/
theorem C8_counterexample_rlc_bonus :
    detect_product "rlc-ai" ≠ detect_product_claimed "rlc-ai" ∧
    detect_product "rlc-ai" = some ⟨"rlc-ai", 30⟩ ∧
    detect_product_claimed "rlc-ai" = some ⟨"rlc", 10⟩ := by
  refine ⟨by decide, by decide, by decide⟩

/-- C8 amended: product detection follows the declarative rule "each
matching keyword contributes 10 points per token plus a flat 20-point
bonus when the product id starts with `rlc-`; the per-product sum is
capped at 50; products with positive score are ranked; the highest
capped score wins with ties broken by first-registered order; the
product is unset when no keyword matches". -/
theorem C8_amended_detect_product_follows_spec (request : String) :
    detect_product request = detect_product_spec request := by
  unfold detect_product detect_product_spec
  rw [pyMaxByVal_eq_firstMax, productScores_eq]
  cases firstMax (spec_scores keywordContribution request) with
  | none => rfl
  | some x =>
    cases x with
    | mk a b => rfl

set_option maxRecDepth 8000 in
/-- C9 counterexample: the company-type scorer gives no contrast
increment and no contrast reason even when the CIQ asset's color is the
contrast-correct choice for the requested background (black on light):
the score is 80+90+20 from background, default type and standard
context, and the reason string never mentions the contrast match. -/
theorem C9_counterexample_ciq_scoring_has_no_contrast_bonus :
    (detect_attributes "ciq logo light").background = some ⟨"light", 60⟩ ∧
    pyLower ciqNeutralAsset.color = "black" ∧
    score_ciq_assets [("ciq_neutral_light", ciqNeutralAsset)]
        (detect_attributes "ciq logo light") =
      [(190, ciqNeutralAsset,
        "perfect light background match + standard CIQ company logo + ideal for standard applications")] ∧
    strIn "contrast"
      "perfect light background match + standard CIQ company logo + ideal for standard applications" = false := by
  refine ⟨by decide, by decide, by decide, by decide⟩

/-- C9 amended: the contrast-correctness bonus exists only in the
product-type scorer: with a detected background and a contrast-correct
asset color (black for light, white for dark) the product scorer adds
exactly 20 points and its reason string mentions the contrast match,
while the company-type (CIQ) scorer's reason string never mentions
contrast. -/
theorem C9_amended_contrast_bonus_product_scoring_only (request : String) (a : AssetRecord)
    (bg : AttrVal)
    (hbg : (detect_attributes request).background = some bg)
    (hc : (bg.value = "light" ∧ pyLower a.color = "black") ∨
          (bg.value = "dark" ∧ pyLower a.color = "white")) :
    (score_product_asset (detect_attributes request) a).1 =
      (productBgPart (detect_attributes request)).1 +
        (productLayoutPart (detect_attributes request) (pyLower ((a.layout).getD ""))).1 + 20 ∧
    strIn "contrast"
      (joinPlus (score_product_asset (detect_attributes request) a).2) = true ∧
    strIn "contrast"
      (joinPlus (score_ciq_asset (detect_attributes request) a).2) = false := by
  have hcp : productContrastPart (detect_attributes request) a =
      (20, ["proper dark-on-light contrast"]) ∨
      productContrastPart (detect_attributes request) a =
      (20, ["proper light-on-dark contrast"]) := by
    simp only [productContrastPart, hbg]
    rcases hc with ⟨h1, h2⟩ | ⟨h1, h2⟩
    · exact Or.inl (by rw [if_pos (by simp [h1, h2])])
    · exact Or.inr (by rw [if_neg (by simp [h1]), if_pos (by simp [h1, h2])])
  have hbv : bg.value = "light" ∨ bg.value = "dark" := by
    rcases hc with ⟨h1, _⟩ | ⟨h1, _⟩
    · exact Or.inl h1
    · exact Or.inr h1
  refine ⟨?_, ?_, ?_⟩
  · simp only [score_product_asset]
    rcases hcp with h | h <;> rw [h]
  · have hmem : ∃ s, s ∈ (score_product_asset (detect_attributes request) a).2 ∧
        strIn "contrast" s = true := by
      rcases hcp with h | h
      · refine ⟨"proper dark-on-light contrast", ?_, by decide⟩
        simp only [score_product_asset, h, List.mem_append]
        simp
      · refine ⟨"proper light-on-dark contrast", ?_, by decide⟩
        simp only [score_product_asset, h, List.mem_append]
        simp
    rcases hmem with ⟨s, hs, hsi⟩
    exact strIn_of_infix ((strIn_iff.mp hsi).trans
      (infix_joinPlus (score_product_asset (detect_attributes request) a).2 s hs))
  · rcases detect_attributes_cct_values request with h4 | h4 | h4 | h4 <;>
      rcases hbv with hb | hb <;>
        simp only [score_ciq_asset, hbg, h4, hb] <;>
        (repeat' split) <;>
        set_option maxRecDepth 4000 in decide

/-- Witness for the amended C9 on a concrete dark request and a white
horizontal asset. -/
theorem C9_amended_witness :
    (score_product_asset (detect_attributes "fuzzball dark") fbHDark).1 =
      (productBgPart (detect_attributes "fuzzball dark")).1 +
        (productLayoutPart (detect_attributes "fuzzball dark")
          (pyLower ((fbHDark.layout).getD ""))).1 + 20 ∧
    strIn "contrast"
      (joinPlus (score_product_asset (detect_attributes "fuzzball dark") fbHDark).2) = true := by
  have h := C9_amended_contrast_bonus_product_scoring_only "fuzzball dark" fbHDark
    ⟨"dark", 60⟩ (by decide) (Or.inr ⟨rfl, by decide⟩)
  exact ⟨h.1, h.2.1⟩

end BrandAssets
